import Mathlib

/-!
Verification of the aiotractive client library core: the authenticated
request pipeline (`aiotractive/api.py`) and the streaming event channel
(`aiotractive/channel.py`), shallowly embedded as pure state-passing
functions.  Network I/O is abstracted by explicit response oracles: every
place the Python code awaits the HTTP session, the embedding consumes a
constructor describing what the session did (returned a response, raised
`ClientResponseError`, timed out, ...).
-/

namespace Aiotractive

/-- Modelled from the spec: the repository's `exceptions.py` module is absent
from the provided sources (only `tests/test_exceptions.py` references it).
The error taxonomy follows spec section 7 and the tests' subclass assertions:
`UnauthorizedError`, `NotFoundError` and `DisconnectedError` all subclass
`TractiveError`, which subclasses `Exception`; `TractiveError` may carry a
message (`TractiveError("Request limit exceeded")`) or be raised bare. -/
inductive Exc where
  | unauthorizedError
  | notFoundError
  | tractiveError (msg : Option String)
  | disconnectedError
  deriving DecidableEq, Repr

/-- A parsed JSON token-response body, as stored unvalidated in
`API._user_credentials` (api.py line 166 assigns `await response.json()`
wholesale). Each field the code later subscripts may be absent: `user_id`
and `access_token` are `some _` when present (as strings), `expires_at` is
`some _` when present with a numeric value (epoch seconds, modelled as a
rational); a body that is not a dict, or whose entry has the wrong type for
the subtraction, behaves like one with the field absent (the lookup or the
arithmetic raises). -/
structure TokenBody where
  user_id : Option String
  access_token : Option String
  expires_at : Option ℚ
  deriving DecidableEq, Repr

/-- The derived header pair stored in `API._auth_headers`
(api.py lines 167-172). -/
structure AuthHeaders where
  x_tractive_user : String
  authorization : String
  deriving DecidableEq, Repr

/-- Header derivation from the body's `user_id` and `access_token`, as in
`API.authenticate` (api.py lines 167-172). -/
def mkAuthHeaders (uid tok : String) : AuthHeaders :=
  { x_tractive_user := uid
    authorization := "Bearer " ++ tok }

/-- The mutable credential state of an `API` instance:
`_user_credentials` and `_auth_headers` (api.py lines 56-57). -/
structure APIState where
  user_credentials : Option TokenBody
  auth_headers : Option AuthHeaders
  deriving DecidableEq, Repr

/-- Outcome of the `POST auth/token` call inside `authenticate`
(api.py lines 149-161), as seen by the surrounding `try`:
the session raised `ClientResponseError(status)`, raised some other
exception, or delivered a response whose `Content-Type` either contains
`application/json` (body parsed, possibly lacking the keys the code then
subscripts) or does not. -/
inductive TokenResponse where
  | clientResponseError (status : ℕ)
  | otherException
  | jsonResponse (body : TokenBody)
  | nonJsonResponse
  deriving DecidableEq, Repr

/-- Exception leaving `authenticate`: one of the library's typed exceptions
(from the `except` clauses, api.py lines 174-179), or the uncaught
`KeyError`/`TypeError` the staleness pre-check raises when the cached body
has no usable `expires_at` — that lookup (api.py line 140) sits outside the
`try`, so nothing translates it. -/
inductive AuthErr where
  | exc (e : Exc)
  | uncaughtError
  deriving DecidableEq, Repr

/-- Result of one `authenticate()` call: the post-call state, the returned
value or raised exception, and whether the token endpoint was contacted. -/
structure AuthResult where
  state : APIState
  outcome : Except AuthErr (Option TokenBody)
  networkCall : Bool

/-- The staleness pre-check at the top of `API.authenticate`
(api.py lines 138-143): if a body is cached and
`expires_at - time.time() < 3600`, both the credentials and the derived
headers are cleared; a cached body without a usable `expires_at` makes the
lookup raise (uncaught, modelled as `Except.error`). -/
def staleCheck (s : APIState) (now : ℚ) : Except Unit APIState :=
  match s.user_credentials with
  | some b =>
    match b.expires_at with
    | some e => Except.ok (if e - now < 3600 then ⟨none, none⟩ else s)
    | none => Except.error ()
  | none => Except.ok s

/-- `API.authenticate` (api.py lines 136-181): staleness pre-check (whose
lookup can raise uncaught), cached early return, otherwise the token POST
with its error translation (`ClientResponseError` 401/403 to
`UnauthorizedError`, any other failure to `TractiveError`). On a JSON
response the code first stores the parsed body in `_user_credentials`
(line 166) and only then derives the headers by subscripting it
(lines 167-172): when `user_id` and `access_token` are present the headers
are stored and the body returned; when either is missing the lookup raises
inside the `try` and is re-raised as a bare `TractiveError` — with the body
already cached and the headers left as they were. A non-JSON response falls
through to `return None`. -/
def authenticate (s : APIState) (now : ℚ) (resp : TokenResponse) : AuthResult :=
  match staleCheck s now with
  | .error _ => ⟨s, Except.error AuthErr.uncaughtError, false⟩
  | .ok s1 =>
    match s1.user_credentials with
    | some b => ⟨s1, Except.ok (some b), false⟩
    | none =>
      match resp with
      | .clientResponseError st =>
          if st = 401 ∨ st = 403 then
            ⟨s1, Except.error (AuthErr.exc Exc.unauthorizedError), true⟩
          else ⟨s1, Except.error (AuthErr.exc (Exc.tractiveError none)), true⟩
      | .otherException =>
          ⟨s1, Except.error (AuthErr.exc (Exc.tractiveError none)), true⟩
      | .jsonResponse b =>
          match b.user_id, b.access_token with
          | some uid, some tok =>
              ⟨⟨some b, some (mkAuthHeaders uid tok)⟩, Except.ok (some b), true⟩
          | _, _ =>
              ⟨⟨some b, s1.auth_headers⟩,
                Except.error (AuthErr.exc (Exc.tractiveError none)), true⟩
      | .nonJsonResponse => ⟨s1, Except.ok none, true⟩

/-- Outcome of one `session.request` inside `API.raw_request`
(api.py lines 102-108), after the auth headers were obtained: the session
raised `ClientResponseError(status)` (as the default self-created session
with `raise_for_status=True` does for every non-2xx status), raised some
other exception, or delivered the response as a value carrying its status
and whether its `Content-Type` contains `application/json`. -/
inductive ReqOutcome where
  | clientResponseError (status : ℕ)
  | otherException
  | response (status : ℕ) (isJson : Bool)
  deriving DecidableEq, Repr

/-- What one attempt of `raw_request` observes: the outcome of
`await self.auth_headers()` (which runs `authenticate`, api.py line 106) and,
when that succeeded, the outcome of the HTTP call itself. -/
structure Attempt where
  auth : Except Exc Unit
  resp : ReqOutcome
  deriving Repr

/-- Exception leaving `raw_request`, before `request`'s translation:
a propagated aiohttp `ClientResponseError`, one of the library's own typed
exceptions (raised by `authenticate` or by the retry-exhaustion branch), or
any other exception. -/
inductive RawErr where
  | clientResponseError (status : ℕ)
  | exc (e : Exc)
  | other
  deriving DecidableEq, Repr

/-- Shape of a successful `raw_request` return value (api.py lines 126-134):
the parsed JSON value or the raw body bytes. -/
inductive Payload where
  | json
  | bytes
  deriving DecidableEq, Repr

/-- Result of a `raw_request` call chain: the value or exception, plus the
backoff delays passed to `asyncio.sleep`, in order. -/
structure RawResult where
  result : Except RawErr Payload
  sleeps : List ℚ
  deriving Repr

/-- `API.raw_request` (api.py lines 92-134): each attempt first obtains auth
headers (any exception propagates), then performs the HTTP call; a response
delivered with status 429 is retried with `asyncio.sleep(retry_delay attempt)`
while `attempt <= retry_count`, and raises
`TractiveError("Request limit exceeded")` once retries are exhausted; any
other delivered response returns parsed JSON or raw bytes depending on its
`Content-Type`. The oracle maps each attempt number to what the session did. -/
def raw_request (retryCount : ℕ) (delayFn : ℕ → ℚ) (oracle : ℕ → Attempt)
    (attempt : ℕ) : RawResult :=
  match (oracle attempt).auth with
  | .error e => ⟨.error (.exc e), []⟩
  | .ok _ =>
    match (oracle attempt).resp with
    | .clientResponseError st => ⟨.error (.clientResponseError st), []⟩
    | .otherException => ⟨.error .other, []⟩
    | .response status isJson =>
      if status = 429 then
        if h : attempt ≤ retryCount then
          let rest := raw_request retryCount delayFn oracle (attempt + 1)
          ⟨rest.result, delayFn attempt :: rest.sleeps⟩
        else ⟨.error (.exc (.tractiveError (some "Request limit exceeded"))), []⟩
      else if isJson then ⟨.ok .json, []⟩ else ⟨.ok .bytes, []⟩
  termination_by retryCount + 1 - attempt
  decreasing_by omega

/-- `API.request` (api.py lines 72-90): runs `raw_request` starting at
attempt 1 and translates exceptions: a `ClientResponseError` with status
401/403 becomes `UnauthorizedError`, with 404 `NotFoundError`, otherwise a
bare `TractiveError`; every other exception — including the library's own
typed exceptions such as an `UnauthorizedError` raised by `authenticate`
during header acquisition — is caught by the final `except Exception` and
re-raised as a bare `TractiveError`. -/
def request (retryCount : ℕ) (delayFn : ℕ → ℚ) (oracle : ℕ → Attempt) :
    Except Exc Payload × List ℚ :=
  let r := raw_request retryCount delayFn oracle 1
  match r.result with
  | .ok v => ⟨.ok v, r.sleeps⟩
  | .error (.clientResponseError st) =>
    if st = 401 ∨ st = 403 then ⟨.error .unauthorizedError, r.sleeps⟩
    else if st = 404 then ⟨.error .notFoundError, r.sleeps⟩
    else ⟨.error (.tractiveError none), r.sleeps⟩
  | .error (.exc _) => ⟨.error (.tractiveError none), r.sleeps⟩
  | .error .other => ⟨.error (.tractiveError none), r.sleeps⟩

/-- The default retry delay of `API.__init__` (api.py lines 40-41),
`lambda attempt: 4**attempt + random.uniform(0, 3)`, with the jitter draw
made an explicit argument in `[0, 3]`. -/
def retry_delay (attempt : ℕ) (jitter : ℚ) : ℚ := 4 ^ attempt + jitter

/-- A JSON frame read from the streaming connection: its `message` field and
an abstract identity for the rest of the payload. -/
structure Frame where
  message : String
  payload : ℕ
  deriving DecidableEq, Repr

/-- `Channel.IGNORE_MESSAGES` (channel.py line 17). -/
def IGNORE_MESSAGES : List String := ["handshake", "keep-alive"]

/-- `Channel.KEEP_ALIVE_TIMEOUT` (channel.py line 19), in seconds. -/
def KEEP_ALIVE_TIMEOUT : ℚ := 60

/-- `Channel.CHECK_CONNECTION_TIME` (channel.py line 20), in seconds. -/
def CHECK_CONNECTION_TIME : ℚ := 5

/-- An item of `Channel._queue`: the dicts
`{"type": "event"|"error"|"cancelled", ...}` put by `Channel._listen`. -/
inductive QItem where
  | event (f : Frame)
  | error (e : Exc)
  | cancelled
  deriving DecidableEq, Repr

/-- The reader-side state of a `Channel`: `_last_keep_alive` and the contents
of `_queue` (in FIFO order, head = oldest). -/
structure ListenState where
  lastKeepAlive : Option ℚ
  queue : List QItem
  deriving DecidableEq, Repr

/-- Per-frame processing of the `async for data in response.content` body
(channel.py lines 69-76): a `keep-alive` frame records the current time and
is dropped, any other frame in `IGNORE_MESSAGES` is dropped, everything else
is enqueued as an event. `t` is `time.time()` when the frame is handled. -/
def processFrame (st : ListenState) (f : Frame) (t : ℚ) : ListenState :=
  if f.message = "keep-alive" then { st with lastKeepAlive := some t }
  else if f.message ∈ IGNORE_MESSAGES then st
  else { st with queue := st.queue ++ [QItem.event f] }

/-- Processing of a whole sequence of timed frames, in arrival order. -/
def processFrames (st : ListenState) : List (Frame × ℚ) → ListenState
  | [] => st
  | (f, t) :: rest => processFrames (processFrame st f t) rest

/-- The event items the spec says the consumer observes: the frames whose
`message` is neither `keep-alive` nor `handshake`, in arrival order. This
definition follows the spec's words (spec sections 4.2 and 8) and is compared
against `processFrames`, which is translated from the code. -/
def specEventFrames : List (Frame × ℚ) → List QItem
  | [] => []
  | (f, _) :: rest =>
    if f.message ∈ IGNORE_MESSAGES then specEventFrames rest
    else QItem.event f :: specEventFrames rest

/-- The spec's description of the liveness timestamp: the handling time of
the last `keep-alive` frame, or the initial value when none arrived
(spec section 4.2: only keep-alive frames update last-liveness). -/
def specLastKeepAlive (init : Option ℚ) : List (Frame × ℚ) → Option ℚ
  | [] => init
  | (f, t) :: rest =>
    specLastKeepAlive (if f.message = "keep-alive" then some t else init) rest

/-- Outcome of one iteration of the `while True` loop of `Channel._listen`
(channel.py lines 55-97): the frames read in arrival order with their
handling times, then how the iteration ended — the transport timed out
(`asyncio.TimeoutError`), the content stream ended without error, the session
raised `ClientResponseError(status)`, the task received `CancelledError`, or
some other exception was raised. -/
inductive ConnOutcome where
  | timeout (fs : List (Frame × ℚ))
  | streamEnd (fs : List (Frame × ℚ))
  | respError (fs : List (Frame × ℚ)) (status : ℕ)
  | cancelledSig (fs : List (Frame × ℚ))
  | otherError (fs : List (Frame × ℚ))
  deriving DecidableEq, Repr

/-- Whether the reader loop keeps running after an iteration. -/
inductive LoopCtl where
  | cont
  | term
  deriving DecidableEq, Repr

/-- One iteration of `Channel._listen`'s outer loop (channel.py lines 55-97):
frames are processed as they arrive; `asyncio.TimeoutError` and a normally
ended stream just loop again; `ClientResponseError` enqueues an
`UnauthorizedError` error item for status 401/403 and a bare `TractiveError`
otherwise, then returns; `CancelledError` enqueues a cancelled item and
returns; any other exception enqueues a bare `TractiveError` and returns. -/
def listenStep (st : ListenState) : ConnOutcome → ListenState × LoopCtl
  | .timeout fs => (processFrames st fs, .cont)
  | .streamEnd fs => (processFrames st fs, .cont)
  | .respError fs status =>
      let st1 := processFrames st fs
      if status = 401 ∨ status = 403 then
        ({ st1 with queue := st1.queue ++ [QItem.error Exc.unauthorizedError] }, .term)
      else
        ({ st1 with queue := st1.queue ++ [QItem.error (Exc.tractiveError none)] }, .term)
  | .cancelledSig fs =>
      let st1 := processFrames st fs
      ({ st1 with queue := st1.queue ++ [QItem.cancelled] }, .term)
  | .otherError fs =>
      let st1 := processFrames st fs
      ({ st1 with queue := st1.queue ++ [QItem.error (Exc.tractiveError none)] }, .term)

/-- The reader loop driven by a list of connection outcomes: it runs
iterations until one terminates the task (or the outcome list is exhausted
with the loop still live). -/
def listenLoop (st : ListenState) : List ConnOutcome → ListenState × LoopCtl
  | [] => (st, .cont)
  | o :: rest =>
    match listenStep st o with
    | (st1, .cont) => listenLoop st1 rest
    | (st1, .term) => (st1, .term)

/-- What one poll of `Channel._check_connection` (channel.py lines 99-111)
does: cancel the reader task and return, or sleep `CHECK_CONNECTION_TIME`
seconds and poll again. -/
inductive WatchdogStep where
  | cancelReader
  | sleep (secs : ℚ)
  deriving DecidableEq, Repr

/-- One poll of the watchdog loop: if a keep-alive has been observed and more
than `KEEP_ALIVE_TIMEOUT` seconds have passed since, cancel the reader and
return; otherwise sleep `CHECK_CONNECTION_TIME` and continue. -/
def check_connection_step (lastKeepAlive : Option ℚ) (now : ℚ) : WatchdogStep :=
  match lastKeepAlive with
  | some t =>
      if now - t > KEEP_ALIVE_TIMEOUT then .cancelReader
      else .sleep CHECK_CONNECTION_TIME
  | none => .sleep CHECK_CONNECTION_TIME

/-- A teardown action the consumer loop performs on a task before raising. -/
inductive TeardownAct where
  | cancelWatchdog
  | awaitWatchdog
  | cancelReader
  | awaitReader
  deriving DecidableEq, Repr

/-- What the consumer does with one dequeued item: yield the event payload
and keep iterating, or raise an exception (ending the iteration). -/
inductive ConsumerOut where
  | yieldEvent (f : Frame)
  | raises (e : Exc)
  deriving DecidableEq, Repr

/-- The per-item behaviour of the consumer loop in `Channel.listen`
(channel.py lines 32-52): an event item is yielded; an error item cancels and
awaits the watchdog, then cancels and awaits the reader, then re-raises the
carried error; a cancelled item cancels and awaits the reader only, then
raises `DisconnectedError` from the cancellation. The first component lists
the teardown actions in program order. -/
def consumerStep : QItem → List TeardownAct × ConsumerOut
  | .event f => ([], .yieldEvent f)
  | .error e =>
      ([.cancelWatchdog, .awaitWatchdog, .cancelReader, .awaitReader], .raises e)
  | .cancelled => ([.cancelReader, .awaitReader], .raises .disconnectedError)

end Aiotractive

namespace Aiotractive

/-- C2: with a cached body whose `expires_at` lies more than 3600 seconds
after the current time, `authenticate()` returns the cached value unchanged
with no network call, and a second consecutive call (under the same freshness
precondition at its own call time) returns the identical value, again with no
network call. -/
theorem authenticate_fresh_cache_hit (s : APIState) (b : TokenBody) (e : ℚ)
    (now1 now2 : ℚ) (r1 r2 : TokenResponse)
    (hc : s.user_credentials = some b) (he : b.expires_at = some e)
    (h1 : 3600 < e - now1) (h2 : 3600 < e - now2) :
    authenticate s now1 r1 = ⟨s, Except.ok (some b), false⟩ ∧
    authenticate (authenticate s now1 r1).state now2 r2
      = ⟨s, Except.ok (some b), false⟩ := by
  have hs1 : staleCheck s now1 = Except.ok s := by
    unfold staleCheck
    simp only [hc, he]
    rw [if_neg (by linarith : ¬ e - now1 < 3600)]
  have hs2 : staleCheck s now2 = Except.ok s := by
    unfold staleCheck
    simp only [hc, he]
    rw [if_neg (by linarith : ¬ e - now2 < 3600)]
  have hfirst : authenticate s now1 r1 = ⟨s, Except.ok (some b), false⟩ := by
    unfold authenticate
    simp only [hs1, hc]
  refine ⟨hfirst, ?_⟩
  rw [hfirst]
  unfold authenticate
  simp only [hs2, hc]

/-- Witness for `authenticate_fresh_cache_hit` at a concrete state and times. -/
theorem authenticate_fresh_cache_hit_witness :
    authenticate ⟨some ⟨some "u1", some "tok", some 10000⟩,
        some (mkAuthHeaders "u1" "tok")⟩ 0 TokenResponse.otherException
      = ⟨⟨some ⟨some "u1", some "tok", some 10000⟩,
          some (mkAuthHeaders "u1" "tok")⟩,
          Except.ok (some ⟨some "u1", some "tok", some 10000⟩), false⟩ ∧
    authenticate (authenticate ⟨some ⟨some "u1", some "tok", some 10000⟩,
          some (mkAuthHeaders "u1" "tok")⟩ 0 TokenResponse.otherException).state
        1 TokenResponse.otherException
      = ⟨⟨some ⟨some "u1", some "tok", some 10000⟩,
          some (mkAuthHeaders "u1" "tok")⟩,
          Except.ok (some ⟨some "u1", some "tok", some 10000⟩), false⟩ :=
  authenticate_fresh_cache_hit _ _ 10000 0 1 _ _ rfl rfl (by norm_num)
    (by norm_num)

/-- C10 counterexample: with stale credentials cached, a 2xx JSON response
whose body lacks `user_id` and `access_token` makes the refresh raise a
`TractiveError` with the malformed body left cached in `_user_credentials`
(api.py line 166 stores the body before the header lookups that raise); a
later `authenticate()` call then performs no fresh login — it returns the
cached malformed body, whose `expires_at` is far in the future. So a raising
refresh can leave credentials cached, contrary to the claim. -/
theorem authenticate_refresh_failure_keeps_body :
    (authenticate ⟨some ⟨some "u1", some "tok", some 100⟩,
        some ⟨"u1", "Bearer tok"⟩⟩ 0
        (TokenResponse.jsonResponse ⟨none, none, some 999999⟩)).outcome
      = Except.error (AuthErr.exc (Exc.tractiveError none)) ∧
    (authenticate ⟨some ⟨some "u1", some "tok", some 100⟩,
        some ⟨"u1", "Bearer tok"⟩⟩ 0
        (TokenResponse.jsonResponse ⟨none, none, some 999999⟩)).state.user_credentials
      = some ⟨none, none, some 999999⟩ ∧
    authenticate (authenticate ⟨some ⟨some "u1", some "tok", some 100⟩,
          some ⟨"u1", "Bearer tok"⟩⟩ 0
          (TokenResponse.jsonResponse ⟨none, none, some 999999⟩)).state 1
        TokenResponse.otherException
      = ⟨⟨some ⟨none, none, some 999999⟩, none⟩,
          Except.ok (some ⟨none, none, some 999999⟩), false⟩ := by
  refine ⟨?_, ?_, ?_⟩ <;> norm_num [authenticate, staleCheck]

/-- C10 (amended): when the cached body is within 3600 seconds of expiry,
`authenticate()` clears both the credentials and the derived headers before
attempting the refresh (network call performed); if the refresh fails by
raising before a JSON body is stored (an HTTP error or any other exception
from the request itself), both slots are still absent afterwards; if a JSON
body is stored and the header derivation then raises, that fresh body — and
never the stale one — is left cached, with the headers still absent; and any
credentials the call returns come from the fresh JSON response. -/
theorem authenticate_stale_clears (s : APIState) (b : TokenBody) (e now : ℚ)
    (resp : TokenResponse)
    (hc : s.user_credentials = some b) (he : b.expires_at = some e)
    (hstale : e - now < 3600) :
    (authenticate s now resp).networkCall = true ∧
    (∀ er, (authenticate s now resp).outcome = Except.error er →
      (∀ body, resp ≠ TokenResponse.jsonResponse body) →
      (authenticate s now resp).state = ⟨none, none⟩) ∧
    (∀ er body, (authenticate s now resp).outcome = Except.error er →
      resp = TokenResponse.jsonResponse body →
      (authenticate s now resp).state = ⟨some body, none⟩) ∧
    (∀ b', (authenticate s now resp).outcome = Except.ok (some b') →
      resp = TokenResponse.jsonResponse b') := by
  have hs1 : staleCheck s now = Except.ok ⟨none, none⟩ := by
    unfold staleCheck
    simp only [hc, he]
    rw [if_pos hstale]
  rcases resp with st | _ | b2 | _
  · by_cases h4 : st = 401 ∨ st = 403
    · have ha : authenticate s now (TokenResponse.clientResponseError st)
          = ⟨⟨none, none⟩, Except.error (AuthErr.exc Exc.unauthorizedError),
              true⟩ := by
        unfold authenticate
        simp only [hs1, if_pos h4]
      refine ⟨by rw [ha], ?_, ?_, ?_⟩
      · intro er _ _
        rw [ha]
      · intro er body _ heq
        simp at heq
      · intro b' hout
        rw [ha] at hout
        simp at hout
    · have ha : authenticate s now (TokenResponse.clientResponseError st)
          = ⟨⟨none, none⟩, Except.error (AuthErr.exc (Exc.tractiveError none)),
              true⟩ := by
        unfold authenticate
        simp only [hs1, if_neg h4]
      refine ⟨by rw [ha], ?_, ?_, ?_⟩
      · intro er _ _
        rw [ha]
      · intro er body _ heq
        simp at heq
      · intro b' hout
        rw [ha] at hout
        simp at hout
  · have ha : authenticate s now TokenResponse.otherException
        = ⟨⟨none, none⟩, Except.error (AuthErr.exc (Exc.tractiveError none)),
            true⟩ := by
      unfold authenticate
      simp only [hs1]
    refine ⟨by rw [ha], ?_, ?_, ?_⟩
    · intro er _ _
      rw [ha]
    · intro er body _ heq
      simp at heq
    · intro b' hout
      rw [ha] at hout
      simp at hout
  · rcases hu : b2.user_id with _ | uid <;>
      rcases ht : b2.access_token with _ | tok
    · have ha : authenticate s now (TokenResponse.jsonResponse b2)
          = ⟨⟨some b2, none⟩,
              Except.error (AuthErr.exc (Exc.tractiveError none)), true⟩ := by
        unfold authenticate
        simp only [hs1, hu, ht]
      refine ⟨by rw [ha], ?_, ?_, ?_⟩
      · intro er _ hne
        exact absurd rfl (hne b2)
      · intro er body _ heq
        rw [TokenResponse.jsonResponse.injEq] at heq
        rw [ha, heq]
      · intro b' hout
        rw [ha] at hout
        simp at hout
    · have ha : authenticate s now (TokenResponse.jsonResponse b2)
          = ⟨⟨some b2, none⟩,
              Except.error (AuthErr.exc (Exc.tractiveError none)), true⟩ := by
        unfold authenticate
        simp only [hs1, hu, ht]
      refine ⟨by rw [ha], ?_, ?_, ?_⟩
      · intro er _ hne
        exact absurd rfl (hne b2)
      · intro er body _ heq
        rw [TokenResponse.jsonResponse.injEq] at heq
        rw [ha, heq]
      · intro b' hout
        rw [ha] at hout
        simp at hout
    · have ha : authenticate s now (TokenResponse.jsonResponse b2)
          = ⟨⟨some b2, none⟩,
              Except.error (AuthErr.exc (Exc.tractiveError none)), true⟩ := by
        unfold authenticate
        simp only [hs1, hu, ht]
      refine ⟨by rw [ha], ?_, ?_, ?_⟩
      · intro er _ hne
        exact absurd rfl (hne b2)
      · intro er body _ heq
        rw [TokenResponse.jsonResponse.injEq] at heq
        rw [ha, heq]
      · intro b' hout
        rw [ha] at hout
        simp at hout
    · have ha : authenticate s now (TokenResponse.jsonResponse b2)
          = ⟨⟨some b2, some (mkAuthHeaders uid tok)⟩, Except.ok (some b2),
              true⟩ := by
        unfold authenticate
        simp only [hs1, hu, ht]
      refine ⟨by rw [ha], ?_, ?_, ?_⟩
      · intro er hout _
        rw [ha] at hout
        simp at hout
      · intro er body hout _
        rw [ha] at hout
        simp at hout
      · intro b' hout
        rw [ha] at hout
        simp only [Except.ok.injEq, Option.some.injEq] at hout
        rw [hout]
  · have ha : authenticate s now TokenResponse.nonJsonResponse
        = ⟨⟨none, none⟩, Except.ok none, true⟩ := by
      unfold authenticate
      simp only [hs1]
    refine ⟨by rw [ha], ?_, ?_, ?_⟩
    · intro er _ _
      rw [ha]
    · intro er body _ heq
      simp at heq
    · intro b' hout
      rw [ha] at hout
      simp at hout

/-- Witness for `authenticate_stale_clears`: stale credentials, refresh
raising a non-HTTP exception. -/
theorem authenticate_stale_clears_witness :
    (authenticate ⟨some ⟨some "u1", some "tok", some 100⟩,
        some ⟨"u1", "Bearer tok"⟩⟩ 0 TokenResponse.otherException).networkCall
      = true ∧
    (∀ er, (authenticate ⟨some ⟨some "u1", some "tok", some 100⟩,
        some ⟨"u1", "Bearer tok"⟩⟩ 0 TokenResponse.otherException).outcome
        = Except.error er →
      (∀ body, TokenResponse.otherException ≠ TokenResponse.jsonResponse body) →
      (authenticate ⟨some ⟨some "u1", some "tok", some 100⟩,
        some ⟨"u1", "Bearer tok"⟩⟩ 0 TokenResponse.otherException).state
        = ⟨none, none⟩) ∧
    (∀ er body, (authenticate ⟨some ⟨some "u1", some "tok", some 100⟩,
        some ⟨"u1", "Bearer tok"⟩⟩ 0 TokenResponse.otherException).outcome
        = Except.error er →
      TokenResponse.otherException = TokenResponse.jsonResponse body →
      (authenticate ⟨some ⟨some "u1", some "tok", some 100⟩,
        some ⟨"u1", "Bearer tok"⟩⟩ 0 TokenResponse.otherException).state
        = ⟨some body, none⟩) ∧
    (∀ b', (authenticate ⟨some ⟨some "u1", some "tok", some 100⟩,
        some ⟨"u1", "Bearer tok"⟩⟩ 0 TokenResponse.otherException).outcome
        = Except.ok (some b') →
      TokenResponse.otherException = TokenResponse.jsonResponse b') :=
  authenticate_stale_clears _ ⟨some "u1", some "tok", some 100⟩ 100 0
    TokenResponse.otherException rfl rfl (by norm_num)

/-- C6 counterexample: with near-expiry credentials cached, a non-JSON token
response makes `authenticate()` return `None`, but the post-call state is not
the pre-call state — the staleness pre-check cleared the cached credentials
and headers before the request, and the non-JSON path does not restore them. -/
theorem authenticate_nonjson_changes_state :
    (authenticate ⟨some ⟨some "u1", some "tok", some 100⟩,
        some ⟨"u1", "Bearer tok"⟩⟩ 0
        TokenResponse.nonJsonResponse).outcome = Except.ok none ∧
    (authenticate ⟨some ⟨some "u1", some "tok", some 100⟩,
        some ⟨"u1", "Bearer tok"⟩⟩ 0
        TokenResponse.nonJsonResponse).state
      ≠ (⟨some ⟨some "u1", some "tok", some 100⟩,
          some ⟨"u1", "Bearer tok"⟩⟩ : APIState) := by
  refine ⟨?_, ?_⟩ <;> norm_num [authenticate, staleCheck]
  simp

/-- C6 (amended): if `authenticate()` actually reaches the token endpoint and
the response is not JSON, the call returns `None` raising no error, the
post-call state caches no credentials, and — when no credentials were cached
at call time — the state is exactly unchanged. (Credentials already cleared
by the staleness pre-check are not restored.) -/
theorem authenticate_nonjson_soft_noop (s : APIState) (now : ℚ)
    (hnet : (authenticate s now TokenResponse.nonJsonResponse).networkCall = true) :
    (authenticate s now TokenResponse.nonJsonResponse).outcome = Except.ok none ∧
    (authenticate s now TokenResponse.nonJsonResponse).state.user_credentials = none ∧
    (s.user_credentials = none →
      (authenticate s now TokenResponse.nonJsonResponse).state = s) := by
  rcases hsc : staleCheck s now with u | s1
  · exfalso
    have hfalse : (authenticate s now TokenResponse.nonJsonResponse).networkCall
        = false := by
      unfold authenticate
      simp only [hsc]
    rw [hfalse] at hnet
    exact Bool.noConfusion hnet
  · rcases h : s1.user_credentials with _ | b
    · have ha : authenticate s now TokenResponse.nonJsonResponse
          = ⟨s1, Except.ok none, true⟩ := by
        unfold authenticate
        simp only [hsc, h]
      refine ⟨by rw [ha], by rw [ha]; exact h, ?_⟩
      intro hsnone
      rw [ha]
      show s1 = s
      have hss : staleCheck s now = Except.ok s := by
        unfold staleCheck
        rw [hsnone]
      rw [hss] at hsc
      exact (Except.ok.inj hsc).symm
    · exfalso
      have hfalse : (authenticate s now TokenResponse.nonJsonResponse).networkCall
          = false := by
        unfold authenticate
        simp only [hsc, h]
      rw [hfalse] at hnet
      exact Bool.noConfusion hnet

/-- Witness for `authenticate_nonjson_soft_noop`: empty cache, non-JSON
response. -/
theorem authenticate_nonjson_soft_noop_witness :
    (authenticate ⟨none, none⟩ 0 TokenResponse.nonJsonResponse).outcome
        = Except.ok none ∧
    (authenticate ⟨none, none⟩ 0
        TokenResponse.nonJsonResponse).state.user_credentials = none ∧
    ((⟨none, none⟩ : APIState).user_credentials = none →
      (authenticate ⟨none, none⟩ 0 TokenResponse.nonJsonResponse).state
        = ⟨none, none⟩) :=
  authenticate_nonjson_soft_noop ⟨none, none⟩ 0 rfl

/-- C4: the default backoff `4^attempt + uniform(0, 3)` is strictly
increasing in the attempt number for every pair of jitter draws in `[0, 3]`:
for `n ≥ 1`, `4^n + j1 < 4^(n+1) + j2`. -/
theorem retry_delay_strict_mono (n : ℕ) (hn : 1 ≤ n) (j1 j2 : ℚ)
    (_h10 : 0 ≤ j1) (h13 : j1 ≤ 3) (h20 : 0 ≤ j2) (_h23 : j2 ≤ 3) :
    retry_delay n j1 < retry_delay (n + 1) j2 := by
  unfold retry_delay
  have h4 : (4 : ℚ) ^ 1 ≤ 4 ^ n := pow_le_pow_right₀ (by norm_num) hn
  norm_num at h4
  have hpow : (4 : ℚ) ^ (n + 1) = 4 * 4 ^ n := by ring
  rw [hpow]
  linarith

/-- Witness for `retry_delay_strict_mono`: worst-case jitter draws at
attempts 1 and 2. -/
theorem retry_delay_strict_mono_witness : retry_delay 1 3 < retry_delay 2 0 :=
  retry_delay_strict_mono 1 le_rfl 3 0 (by norm_num) (by norm_num) (by norm_num)
    (by norm_num)

/-- The queue effect of frame processing: exactly the non-noise frames are
appended, in arrival order. -/
theorem processFrames_queue (st : ListenState) (fs : List (Frame × ℚ)) :
    (processFrames st fs).queue = st.queue ++ specEventFrames fs := by
  induction fs generalizing st with
  | nil => simp [processFrames, specEventFrames]
  | cons p rest ih =>
    obtain ⟨f, t⟩ := p
    show (processFrames (processFrame st f t) rest).queue = _
    rw [ih]
    show (processFrame st f t).queue ++ specEventFrames rest
      = st.queue ++ specEventFrames ((f, t) :: rest)
    unfold processFrame
    by_cases hka : f.message = "keep-alive"
    · have hmem : f.message ∈ IGNORE_MESSAGES := by
        rw [hka]
        simp [IGNORE_MESSAGES]
      rw [if_pos hka]
      show st.queue ++ specEventFrames rest = _
      rw [specEventFrames, if_pos hmem]
    · rw [if_neg hka]
      by_cases hmem : f.message ∈ IGNORE_MESSAGES
      · rw [if_pos hmem]
        show st.queue ++ specEventFrames rest = _
        rw [specEventFrames, if_pos hmem]
      · rw [if_neg hmem]
        show (st.queue ++ [QItem.event f]) ++ specEventFrames rest = _
        rw [specEventFrames, if_neg hmem]
        simp

/-- The liveness effect of frame processing: the timestamp tracks the last
keep-alive handling time. -/
theorem processFrames_lastKeepAlive (st : ListenState) (fs : List (Frame × ℚ)) :
    (processFrames st fs).lastKeepAlive
      = specLastKeepAlive st.lastKeepAlive fs := by
  induction fs generalizing st with
  | nil => rfl
  | cons p rest ih =>
    obtain ⟨f, t⟩ := p
    show (processFrames (processFrame st f t) rest).lastKeepAlive = _
    rw [ih]
    show specLastKeepAlive (processFrame st f t).lastKeepAlive rest
      = specLastKeepAlive (if f.message = "keep-alive" then some t
          else st.lastKeepAlive) rest
    unfold processFrame
    by_cases hka : f.message = "keep-alive"
    · rw [if_pos hka, if_pos hka]
    · rw [if_neg hka, if_neg hka]
      by_cases hmem : f.message ∈ IGNORE_MESSAGES
      · rw [if_pos hmem]
      · rw [if_neg hmem]

/-- A frame sequence with no keep-alive leaves the liveness timestamp at its
initial value. -/
theorem specLastKeepAlive_const (init : Option ℚ) (fs : List (Frame × ℚ))
    (h : ∀ p ∈ fs, p.1.message ≠ "keep-alive") :
    specLastKeepAlive init fs = init := by
  induction fs generalizing init with
  | nil => rfl
  | cons p rest ih =>
    obtain ⟨f, t⟩ := p
    show specLastKeepAlive (if f.message = "keep-alive" then some t else init)
        rest = init
    rw [if_neg (h (f, t) (List.mem_cons_self _ _))]
    exact ih init (fun q hq => h q (List.mem_cons_of_mem _ hq))

/-- C5: the reader enqueues exactly the frames whose `message` is neither
`keep-alive` nor `handshake`, in arrival order, after the existing queue
contents; the liveness timestamp ends at the handling time of the last
keep-alive frame; and a sequence containing no keep-alive frame leaves the
timestamp unchanged (only keep-alive frames update it). -/
theorem channel_filters_noise (st : ListenState) (fs : List (Frame × ℚ)) :
    (processFrames st fs).queue = st.queue ++ specEventFrames fs ∧
    (processFrames st fs).lastKeepAlive = specLastKeepAlive st.lastKeepAlive fs ∧
    ((∀ p ∈ fs, p.1.message ≠ "keep-alive") →
      (processFrames st fs).lastKeepAlive = st.lastKeepAlive) :=
  ⟨processFrames_queue st fs, processFrames_lastKeepAlive st fs, fun h => by
    rw [processFrames_lastKeepAlive, specLastKeepAlive_const _ _ h]⟩

/-- Witness for `channel_filters_noise`: a keep-alive, an event and a
handshake frame; only the event frame is enqueued and the timestamp is the
keep-alive's handling time. -/
theorem channel_filters_noise_witness :
    (processFrames ⟨none, []⟩
        [(⟨"keep-alive", 0⟩, 1), (⟨"pos_update", 7⟩, 2), (⟨"handshake", 0⟩, 3)]).queue
      = [] ++ specEventFrames
          [(⟨"keep-alive", 0⟩, 1), (⟨"pos_update", 7⟩, 2), (⟨"handshake", 0⟩, 3)] ∧
    (processFrames ⟨none, []⟩
        [(⟨"keep-alive", 0⟩, 1), (⟨"pos_update", 7⟩, 2), (⟨"handshake", 0⟩, 3)]).lastKeepAlive
      = specLastKeepAlive none
          [(⟨"keep-alive", 0⟩, 1), (⟨"pos_update", 7⟩, 2), (⟨"handshake", 0⟩, 3)] ∧
    ((∀ p ∈ [((⟨"keep-alive", 0⟩ : Frame), (1 : ℚ)), (⟨"pos_update", 7⟩, 2),
        (⟨"handshake", 0⟩, 3)], p.1.message ≠ "keep-alive") →
      (processFrames ⟨none, []⟩
          [(⟨"keep-alive", 0⟩, 1), (⟨"pos_update", 7⟩, 2),
            (⟨"handshake", 0⟩, 3)]).lastKeepAlive = none) :=
  channel_filters_noise ⟨none, []⟩
    [(⟨"keep-alive", 0⟩, 1), (⟨"pos_update", 7⟩, 2), (⟨"handshake", 0⟩, 3)]

/-- C7: a transport-level timeout on the streaming connection is invisible:
any number of consecutive timeout iterations leaves the reader state
unchanged with the loop still running, and a single timeout iteration (after
frames were read) keeps the loop running and adds only the event items of
those frames to the queue — never an error or cancelled item. -/
theorem listen_timeout_invisible (st : ListenState) (n : ℕ)
    (fs : List (Frame × ℚ)) :
    listenLoop st (List.replicate n (ConnOutcome.timeout [])) = (st, LoopCtl.cont) ∧
    (listenStep st (ConnOutcome.timeout fs)).2 = LoopCtl.cont ∧
    (listenStep st (ConnOutcome.timeout fs)).1.queue
      = st.queue ++ specEventFrames fs := by
  refine ⟨?_, rfl, processFrames_queue st fs⟩
  induction n with
  | zero => rfl
  | succ k ih =>
    rw [List.replicate_succ]
    show listenLoop st (ConnOutcome.timeout [] :: _) = (st, LoopCtl.cont)
    simpa [listenLoop, listenStep, processFrames] using ih

/-- C8 counterexample: on the cancelled exit path the consumer loop cancels
and awaits only the reader task — the watchdog task is neither cancelled nor
awaited before `DisconnectedError` is raised. -/
theorem consumer_cancelled_skips_watchdog :
    consumerStep QItem.cancelled
      = ([TeardownAct.cancelReader, TeardownAct.awaitReader],
          ConsumerOut.raises Exc.disconnectedError) ∧
    TeardownAct.cancelWatchdog ∉ (consumerStep QItem.cancelled).1 ∧
    TeardownAct.awaitWatchdog ∉ (consumerStep QItem.cancelled).1 := by
  refine ⟨rfl, ?_, ?_⟩ <;> decide

/-- C8 (amended): on the error exit path the consumer cancels and awaits the
watchdog and then the reader before re-raising the carried error; on the
cancelled exit path it cancels and awaits only the reader before raising
`DisconnectedError`; an event item triggers no teardown and is yielded. -/
theorem consumer_teardown_per_path (e : Exc) (f : Frame) :
    consumerStep (QItem.error e)
      = ([TeardownAct.cancelWatchdog, TeardownAct.awaitWatchdog,
          TeardownAct.cancelReader, TeardownAct.awaitReader],
          ConsumerOut.raises e) ∧
    consumerStep QItem.cancelled
      = ([TeardownAct.cancelReader, TeardownAct.awaitReader],
          ConsumerOut.raises Exc.disconnectedError) ∧
    consumerStep (QItem.event f) = ([], ConsumerOut.yieldEvent f) :=
  ⟨rfl, rfl, rfl⟩

/-- C9: the watchdog polls on a 5-second sleep and never triggers while no
keep-alive has been observed; once a keep-alive was observed and more than
`KEEP_ALIVE_TIMEOUT = 60` seconds have elapsed since, it cancels the reader
and returns; the reader turns the cancellation into a cancelled queue item
and terminates; and the consumer reacts to that item by cancelling and
awaiting the reader and raising `DisconnectedError` — which is distinct from
every `TractiveError`. -/
theorem watchdog_disconnect_path (lka : Option ℚ) (t now : ℚ)
    (st : ListenState) (fs : List (Frame × ℚ)) :
    KEEP_ALIVE_TIMEOUT = 60 ∧
    CHECK_CONNECTION_TIME = 5 ∧
    check_connection_step none now = WatchdogStep.sleep CHECK_CONNECTION_TIME ∧
    (lka = some t → now - t > KEEP_ALIVE_TIMEOUT →
      check_connection_step lka now = WatchdogStep.cancelReader) ∧
    listenStep st (ConnOutcome.cancelledSig fs)
      = (⟨(processFrames st fs).lastKeepAlive,
          (processFrames st fs).queue ++ [QItem.cancelled]⟩, LoopCtl.term) ∧
    consumerStep QItem.cancelled
      = ([TeardownAct.cancelReader, TeardownAct.awaitReader],
          ConsumerOut.raises Exc.disconnectedError) ∧
    (∀ m, ConsumerOut.raises Exc.disconnectedError
        ≠ ConsumerOut.raises (Exc.tractiveError m)) := by
  refine ⟨rfl, rfl, rfl, ?_, rfl, rfl, ?_⟩
  · intro h1 h2
    rw [h1]
    show (if now - t > KEEP_ALIVE_TIMEOUT then WatchdogStep.cancelReader
        else WatchdogStep.sleep CHECK_CONNECTION_TIME) = WatchdogStep.cancelReader
    rw [if_pos h2]
  · intro m h
    simp at h

/-- Witness for `watchdog_disconnect_path`: last keep-alive at time 0,
polled at time 100. -/
theorem watchdog_disconnect_path_witness :
    KEEP_ALIVE_TIMEOUT = 60 ∧
    CHECK_CONNECTION_TIME = 5 ∧
    check_connection_step none 100 = WatchdogStep.sleep CHECK_CONNECTION_TIME ∧
    ((some (0 : ℚ) : Option ℚ) = some 0 → (100 : ℚ) - 0 > KEEP_ALIVE_TIMEOUT →
      check_connection_step (some 0) 100 = WatchdogStep.cancelReader) ∧
    listenStep ⟨none, []⟩ (ConnOutcome.cancelledSig [])
      = (⟨(processFrames ⟨none, []⟩ []).lastKeepAlive,
          (processFrames ⟨none, []⟩ []).queue ++ [QItem.cancelled]⟩, LoopCtl.term) ∧
    consumerStep QItem.cancelled
      = ([TeardownAct.cancelReader, TeardownAct.awaitReader],
          ConsumerOut.raises Exc.disconnectedError) ∧
    (∀ m, ConsumerOut.raises Exc.disconnectedError
        ≠ ConsumerOut.raises (Exc.tractiveError m)) :=
  watchdog_disconnect_path (some 0) 0 100 ⟨none, []⟩ []

/-- C1 counterexample: a token-endpoint 401 makes `authenticate()` raise
`UnauthorizedError`; but when that same `UnauthorizedError` is raised during
`request()`'s header acquisition, `request()`'s final `except Exception`
handler re-raises it as a bare `TractiveError` — so the indirect path does
not surface `Unauthorized`. -/
theorem request_wraps_indirect_unauthorized :
    (authenticate ⟨none, none⟩ 0 (TokenResponse.clientResponseError 401)).outcome
      = Except.error (AuthErr.exc Exc.unauthorizedError) ∧
    (request 3 (fun _ => 0)
        (fun _ => ⟨Except.error Exc.unauthorizedError, ReqOutcome.otherException⟩)).1
      = Except.error (Exc.tractiveError none) ∧
    Exc.tractiveError none ≠ Exc.unauthorizedError := by
  refine ⟨rfl, ?_, by decide⟩
  show (request 3 (fun _ => 0)
      (fun _ => ⟨Except.error Exc.unauthorizedError, ReqOutcome.otherException⟩)).1
    = Except.error (Exc.tractiveError none)
  unfold request raw_request
  rfl

/-- C1 (amended): a 401/403 surfaces as `UnauthorizedError` on each direct
path — `authenticate()` on a token-endpoint `ClientResponseError`, `request()`
on a resource-endpoint `ClientResponseError`, and the stream reader, which
enqueues an `UnauthorizedError` error item; but an exception raised during
`request()`'s header acquisition (in particular the `UnauthorizedError` a
token-endpoint 401/403 produces) is re-wrapped by `request()`'s catch-all
into a bare `TractiveError`. -/
theorem unauthorized_per_path (st : ℕ) (hst : st = 401 ∨ st = 403)
    (s : APIState) (now : ℚ) (hs : s.user_credentials = none)
    (retryCount : ℕ) (delayFn : ℕ → ℚ) (oracle : ℕ → Attempt) (e : Exc)
    (lst : ListenState) (fs : List (Frame × ℚ)) :
    (authenticate s now (TokenResponse.clientResponseError st)).outcome
      = Except.error (AuthErr.exc Exc.unauthorizedError) ∧
    ((oracle 1).auth = Except.ok () →
      (oracle 1).resp = ReqOutcome.clientResponseError st →
      (request retryCount delayFn oracle).1 = Except.error Exc.unauthorizedError) ∧
    (listenStep lst (ConnOutcome.respError fs st)).1.queue
      = (processFrames lst fs).queue ++ [QItem.error Exc.unauthorizedError] ∧
    ((oracle 1).auth = Except.error e →
      (request retryCount delayFn oracle).1
        = Except.error (Exc.tractiveError none)) := by
  have hsc : staleCheck s now = Except.ok s := by
    unfold staleCheck
    rw [hs]
  refine ⟨?_, ?_, ?_, ?_⟩
  · unfold authenticate
    simp only [hsc, hs, if_pos hst]
  · intro ha hr
    have hraw : raw_request retryCount delayFn oracle 1
        = ⟨Except.error (RawErr.clientResponseError st), []⟩ := by
      unfold raw_request
      rw [ha, hr]
    unfold request
    rw [hraw]
    simp only [if_pos hst]
  · unfold listenStep
    simp only [if_pos hst]
  · intro ha
    have hraw : raw_request retryCount delayFn oracle 1
        = ⟨Except.error (RawErr.exc e), []⟩ := by
      unfold raw_request
      rw [ha]
    unfold request
    rw [hraw]

/-- Witness for `unauthorized_per_path`: status 401, empty credential cache,
an oracle whose first attempt raises `ClientResponseError(401)`. -/
theorem unauthorized_per_path_witness :
    (authenticate ⟨none, none⟩ 0 (TokenResponse.clientResponseError 401)).outcome
      = Except.error (AuthErr.exc Exc.unauthorizedError) ∧
    (((fun _ => (⟨Except.ok (), ReqOutcome.clientResponseError 401⟩ : Attempt))
          1).auth = Except.ok () →
      ((fun _ => (⟨Except.ok (), ReqOutcome.clientResponseError 401⟩ : Attempt))
          1).resp = ReqOutcome.clientResponseError 401 →
      (request 3 (fun _ => 0)
          (fun _ => ⟨Except.ok (), ReqOutcome.clientResponseError 401⟩)).1
        = Except.error Exc.unauthorizedError) ∧
    (listenStep ⟨none, []⟩ (ConnOutcome.respError [] 401)).1.queue
      = (processFrames ⟨none, []⟩ []).queue ++ [QItem.error Exc.unauthorizedError] ∧
    (((fun _ => (⟨Except.ok (), ReqOutcome.clientResponseError 401⟩ : Attempt))
          1).auth = Except.error Exc.unauthorizedError →
      (request 3 (fun _ => 0)
          (fun _ => ⟨Except.ok (), ReqOutcome.clientResponseError 401⟩)).1
        = Except.error (Exc.tractiveError none)) :=
  unauthorized_per_path 401 (Or.inl rfl) ⟨none, none⟩ 0 rfl 3 (fun _ => 0)
    (fun _ => ⟨Except.ok (), ReqOutcome.clientResponseError 401⟩)
    Exc.unauthorizedError ⟨none, []⟩ []

/-- C3: evaluation at the failing input. With the default self-created
session (`raise_for_status=True`), a 429 response reaches `raw_request` as a
raised `ClientResponseError`, so the status check never sees 429: `request`
performs zero retries, sleeps nothing, and raises a bare `TractiveError`
instead of `TractiveError("Request limit exceeded")`. The retry branch is
reachable only when the session delivers the 429 response as a value (a
caller-supplied session without `raise_for_status`): then three retries
sleep `delay_fn(1)`, `delay_fn(2)`, `delay_fn(3)` and exhaustion raises
`TractiveError("Request limit exceeded")` out of `raw_request`. -/
theorem request_429_default_session_no_retry :
    request 3 (fun n => retry_delay n 0)
        (fun _ => ⟨Except.ok (), ReqOutcome.clientResponseError 429⟩)
      = (Except.error (Exc.tractiveError none), []) ∧
    raw_request 3 (fun n => retry_delay n 0)
        (fun _ => ⟨Except.ok (), ReqOutcome.response 429 true⟩) 1
      = ⟨Except.error (RawErr.exc (Exc.tractiveError
            (some "Request limit exceeded"))),
          [retry_delay 1 0, retry_delay 2 0, retry_delay 3 0]⟩ := by
  constructor
  · show request 3 (fun n => retry_delay n 0)
        (fun _ => ⟨Except.ok (), ReqOutcome.clientResponseError 429⟩)
      = (Except.error (Exc.tractiveError none), [])
    unfold request raw_request
    rfl
  · show raw_request 3 (fun n => retry_delay n 0)
        (fun _ => ⟨Except.ok (), ReqOutcome.response 429 true⟩) 1
      = ⟨Except.error (RawErr.exc (Exc.tractiveError
            (some "Request limit exceeded"))),
          [retry_delay 1 0, retry_delay 2 0, retry_delay 3 0]⟩
    simp [raw_request]

end Aiotractive
